import Mathlib

/-!
Verification of the XSS security analyzer (`xssSecure.py`) against its
specification. The Python class `XSSSecurityAnalyzer` is shallowly embedded:
its mutable `score` / `findings` / `vulnerabilities` state becomes explicit
values threaded through pure Lean functions, Python floats used for the score
become `ℚ` (every increment is a multiple of 0.5, which floats represent
exactly), the external HTTP client becomes a function from requests to
`Except`-wrapped responses (an `Except.error` models a raised transport
exception), and the external HTML/URL parsing collaborators become explicit
inputs (parsed query parameters, parsed form structures).
-/

namespace XssSecure

/-! ## Python string primitives used by the code

`containsSub pat s` is Python's `pat in s`; `pyReplace s pat rep` is Python's
`s.replace(pat, rep)` (every non-overlapping occurrence, left to right; the
empty-pattern case, which Python treats as inserting between characters, is
never exercised by the analyzer and is modelled as the identity).
-/

def isSubListOf (pat : List Char) : List Char → Bool
  | [] => pat.isEmpty
  | c :: rest => List.isPrefixOf pat (c :: rest) || isSubListOf pat rest

def containsSub (pat s : String) : Bool :=
  isSubListOf pat.data s.data

def replaceFuel (pat rep : List Char) : Nat → List Char → List Char
  | _, [] => []
  | 0, l => l
  | fuel+1, c :: rest =>
    if !pat.isEmpty && List.isPrefixOf pat (c :: rest) then
      rep ++ replaceFuel pat rep fuel (List.drop (pat.length - 1) rest)
    else
      c :: replaceFuel pat rep fuel rest

def pyReplace (s pat rep : String) : String :=
  ⟨replaceFuel pat.data rep.data s.data.length s.data⟩

/-- Python `str.strip()`: whitespace removed from both ends. -/
def isPySpace (c : Char) : Bool :=
  c = ' ' || c = '\t' || c = '\n' || c = '\r' || c = '\x0b' || c = '\x0c'

def pyStrip (s : String) : String :=
  ⟨(((s.data.dropWhile isPySpace).reverse).dropWhile isPySpace).reverse⟩

/-- Python `str.lower()` / `str.upper()` (ASCII case mapping). -/
def pyLower (s : String) : String := ⟨s.data.map Char.toLower⟩

def pyUpper (s : String) : String := ⟨s.data.map Char.toUpper⟩

/-- Python truthiness of an optional header value: `None` and the empty
string are falsy, every other string is truthy. -/
def truthy : Option String → Bool
  | none => false
  | some s => !(s = "")

/-- Python `a or b` on optional header values (used for
`headers.get('Feature-Policy') or headers.get('Permissions-Policy')`). -/
def pyOr (a b : Option String) : Option String :=
  if truthy a then a else b

/-! ## Header Policy Evaluator (`check_headers` and the six `_check_*` rules)

Each rule is a pure function of the fetched header value, returning the score
delta it applies and the findings it appends, in order. `HeaderSet` is the
read-only name-to-value mapping supplied by the caller.
-/

abbrev HeaderSet := String → Option String

/-- `_analyze_csp`: split the CSP value on `;`, strip each directive, and
score `default-src` / `script-src` directives. -/
def cspDirectiveStep (acc : ℚ × List String) (raw : String) : ℚ × List String :=
  let d := pyStrip raw
  if d.startsWith "default-src" then
    if containsSub "'none'" d then
      (acc.1 + 1, acc.2 ++ ["CSP uses 'default-src: none' - strict policy"])
    else if containsSub "'self'" d then
      (acc.1 + 1/2, acc.2 ++ ["CSP uses 'default-src: self' - moderately strict"])
    else acc
  else if d.startsWith "script-src" then
    if containsSub "'unsafe-inline'" d || containsSub "'unsafe-eval'" d then
      (acc.1, acc.2 ++
        ["CSP allows unsafe scripts - consider removing 'unsafe-inline' and 'unsafe-eval'"])
    else
      (acc.1 + 1, acc.2 ++ ["CSP properly restricts script sources"])
  else acc

def analyze_csp (csp : String) : ℚ × List String :=
  (csp.split (fun c => c = ';')).foldl cspDirectiveStep (0, [])

def check_content_security_policy (csp : Option String) : ℚ × List String :=
  if truthy csp then
    let inner := analyze_csp (csp.getD "")
    (1 + inner.1, "CSP header present - good" :: inner.2)
  else
    (0, ["CSP header missing - consider implementing"])

/-- The `max-age=(\d+)` search of `_check_strict_transport_security`: the
first position where `max-age=` is followed by at least one digit, with the
maximal digit run captured. -/
def digitsToNat (ds : List Char) : Nat :=
  ds.foldl (fun a c => 10 * a + (c.toNat - 48)) 0

def findMaxAge : List Char → Option Nat
  | [] => none
  | c :: rest =>
    let here := List.drop ("max-age=".length) (c :: rest)
    if List.isPrefixOf ("max-age=".data) (c :: rest) && !(here.takeWhile Char.isDigit).isEmpty then
      some (digitsToNat (here.takeWhile Char.isDigit))
    else
      findMaxAge rest

def check_strict_transport_security (hsts : Option String) : ℚ × List String :=
  if truthy hsts then
    let h := hsts.getD ""
    let base : ℚ × List String := (1, ["HSTS header present - good"])
    let withSub :=
      if containsSub "includeSubDomains" h then
        (base.1 + 1/2, base.2 ++ ["HSTS includes subdomains"])
      else base
    let withPre :=
      if containsSub "preload" h then
        (withSub.1 + 1/2, withSub.2 ++ ["HSTS preload ready"])
      else withSub
    match findMaxAge h.data with
    | some age =>
      if 31536000 ≤ age then
        (withPre.1 + 1/2, withPre.2 ++ ["HSTS max-age is at least one year"])
      else
        (withPre.1, withPre.2 ++
          ["HSTS max-age is " ++ toString age ++ " seconds - consider increasing to at least one year"])
    | none => withPre
  else
    (0, ["HSTS header missing - consider implementing"])

def check_x_frame_options (xfo : Option String) : ℚ × List String :=
  if truthy xfo then
    let v := xfo.getD ""
    let base : ℚ × List String := (1, ["X-Frame-Options header present: " ++ v])
    if pyUpper v = "DENY" || pyUpper v = "SAMEORIGIN" then
      (base.1 + 1/2, base.2 ++ ["X-Frame-Options properly set to prevent clickjacking"])
    else base
  else
    (0, ["X-Frame-Options header missing - consider implementing to prevent clickjacking"])

def check_x_content_type_options (xcto : Option String) : ℚ × List String :=
  if truthy xcto then
    let v := xcto.getD ""
    if pyLower v = "nosniff" then
      (1, ["X-Content-Type-Options header properly set to 'nosniff'"])
    else
      (0, ["X-Content-Type-Options header present but not set to 'nosniff': " ++ v])
  else
    (0, ["X-Content-Type-Options header missing - consider implementing to prevent MIME type sniffing"])

def check_referrer_policy (rp : Option String) : ℚ × List String :=
  if truthy rp then
    let v := rp.getD ""
    let base : ℚ × List String := (1, ["Referrer-Policy header present: " ++ v])
    if pyLower v = "no-referrer" || pyLower v = "strict-origin-when-cross-origin" then
      (base.1 + 1/2, base.2 ++ ["Referrer-Policy set to a strict value"])
    else base
  else
    (0, ["Referrer-Policy header missing - consider implementing to control referrer information"])

def check_feature_policy (fp pp : Option String) : ℚ × List String :=
  if truthy (pyOr fp pp) then
    (1, ["Feature-Policy/Permissions-Policy header present - good"])
  else
    (0, ["Feature-Policy/Permissions-Policy header missing - consider implementing to control browser features"])

/-- `check_headers`: the six header rules evaluated in source order; the
total score delta and the concatenated findings. -/
def check_headers (headers : HeaderSet) : ℚ × List String :=
  let r1 := check_content_security_policy (headers "Content-Security-Policy")
  let r2 := check_strict_transport_security (headers "Strict-Transport-Security")
  let r3 := check_x_frame_options (headers "X-Frame-Options")
  let r4 := check_x_content_type_options (headers "X-Content-Type-Options")
  let r5 := check_referrer_policy (headers "Referrer-Policy")
  let r6 := check_feature_policy (headers "Feature-Policy") (headers "Permissions-Policy")
  (r1.1 + r2.1 + r3.1 + r4.1 + r5.1 + r6.1,
   r1.2 ++ r2.2 ++ r3.2 ++ r4.2 ++ r5.2 ++ r6.2)

/-! ## Static Content Scanner (`analyze_content`)

The six unsafe-JS regexes of `unsafe_js_patterns` are matched with
`re.search(..., re.IGNORECASE)`. Each regex is a linear pattern over
disjoint character classes (a literal, `\s*`, `\w+`, one quote character),
so greedy matching without backtracking is exact; case-insensitivity is
modelled by lowercasing the content and writing the literals in lower case.
The inline-`<script>` count comes from the external HTML-tree collaborator
(BeautifulSoup) and is an explicit input.
-/

def isWordChar (c : Char) : Bool := c.isAlphanum || c = '_'

inductive Tok where
  | lit (s : List Char)
  | wsStar
  | wordPlus
  | oneOf (cs : List Char)

def matchToksAt : List Tok → List Char → Bool
  | [], _ => true
  | Tok.lit l :: ts, cs =>
    if List.isPrefixOf l cs then matchToksAt ts (cs.drop l.length) else false
  | Tok.wsStar :: ts, cs => matchToksAt ts (cs.dropWhile isPySpace)
  | Tok.wordPlus :: ts, cs =>
    match cs with
    | [] => false
    | c :: rest => if isWordChar c then matchToksAt ts (rest.dropWhile isWordChar) else false
  | Tok.oneOf ks :: ts, cs =>
    match cs with
    | [] => false
    | c :: rest => if ks.contains c then matchToksAt ts rest else false

def searchToks (ts : List Tok) : List Char → Bool
  | [] => matchToksAt ts []
  | c :: rest => matchToksAt ts (c :: rest) || searchToks ts rest

/-- `re.search(pattern, content, re.IGNORECASE)` for the linear patterns of
the table. -/
def patMatch (ts : List Tok) (content : String) : Bool :=
  searchToks ts (content.data.map Char.toLower)

/-- The quote class `['"`]` of the `setTimeout`/`setInterval` patterns:
apostrophe (39), double quote (34), backtick (96). -/
def quoteChars : List Char := [Char.ofNat 39, Char.ofNat 34, Char.ofNat 96]

/-- The `unsafe_js_patterns` table, in Python dict insertion order. -/
def unsafe_js_patterns : List (List Tok × String) :=
  [([Tok.lit ("document.write".data)],
    "Usage of document.write detected - potential XSS risk"),
   ([Tok.lit ("eval".data), Tok.wsStar, Tok.lit ("(".data)],
    "Usage of eval() detected - potential security risk"),
   ([Tok.lit ("innerhtml".data), Tok.wsStar, Tok.lit ("=".data)],
    "Direct manipulation of innerHTML detected - potential XSS risk"),
   ([Tok.lit ("on".data), Tok.wordPlus, Tok.wsStar, Tok.lit ("=".data)],
    "Inline event handlers detected - consider using addEventListener"),
   ([Tok.lit ("settimeout".data), Tok.wsStar, Tok.lit ("(".data), Tok.wsStar, Tok.oneOf quoteChars],
    "Potentially unsafe use of setTimeout with string argument"),
   ([Tok.lit ("setinterval".data), Tok.wsStar, Tok.lit ("(".data), Tok.wsStar, Tok.oneOf quoteChars],
    "Potentially unsafe use of setInterval with string argument")]

def patternFindings (content : String) : List String :=
  (unsafe_js_patterns.filter (fun pm => patMatch pm.1 content)).map Prod.snd

def patternDelta (content : String) : ℚ :=
  -((unsafe_js_patterns.filter (fun pm => patMatch pm.1 content)).length : ℚ)

/-- The output-encoding regex `<[^>]*>.*&lt;script&gt;` (case-sensitive, `.`
does not cross a newline): `.*Lit` — the literal occurs after only
non-newline characters. -/
def dotStarLit (l : List Char) : List Char → Bool
  | [] => List.isPrefixOf l []
  | c :: rest => List.isPrefixOf l (c :: rest) || (!(c = '\n') && dotStarLit l rest)

def encFrom : List Char → Bool
  | '<' :: rest =>
    match rest.dropWhile (fun c => !(c = '>')) with
    | '>' :: tail => dotStarLit ("&lt;script&gt;".data) tail
    | _ => false
  | _ => false

def encSearch : List Char → Bool
  | [] => false
  | c :: rest => encFrom (c :: rest) || encSearch rest

/-- `analyze_content`: inline-script penalty, the six unsafe-JS pattern
rules, then the output-encoding bonus, combined in source order.
`inlineScripts` is `len(soup.find_all('script', src=False))`, supplied by
the external HTML-tree collaborator. -/
def analyze_content (content : String) (inlineScripts : Nat) : ℚ × List String :=
  let inlF : List String :=
    if inlineScripts ≠ 0 then
      ["Inline scripts detected (" ++ toString inlineScripts ++ ") - consider moving to external files"]
    else []
  let inlD : ℚ := if inlineScripts ≠ 0 then -(inlineScripts : ℚ) else 0
  let encB := encSearch content.data
  let encF : List String := if encB then ["Evidence of HTML encoding in output - good practice"] else []
  let encD : ℚ := if encB then 1 else 0
  (inlD + patternDelta content + encD, inlF ++ patternFindings content ++ encF)

/-! ## Forms and the CSRF check (`check_forms`)

A `Form` is what the probe and CSRF passes read off a parsed `<form>`
element: its `id`, `action` and `method` attributes (absent attributes are
`none`) and its `<input>` children's `name` and `type` attributes.
-/

structure FormInput where
  name : Option String
  type : Option String
deriving DecidableEq

structure Form where
  id : Option String
  action : Option String
  method : Option String
  inputs : List FormInput
deriving DecidableEq

/-- `form.find('input', attrs={'type': 'hidden', 'name': re.compile(r'csrf', re.I)})`:
a hidden input whose name contains "csrf" case-insensitively. -/
def hasCsrfInput (f : Form) : Bool :=
  f.inputs.any (fun i =>
    i.type = some "hidden" &&
    (match i.name with
     | some n => containsSub "csrf" (pyLower n)
     | none => false))

def check_forms (forms : List Form) : List String :=
  forms.filterMap (fun f =>
    if hasCsrfInput f then none
    else some ("Form " ++ f.id.getD "unknown" ++ " lacks CSRF token - potential XSS risk"))

/-! ## HTTP model

The external HTTP client is a function from requests to responses; a raised
transport exception is `Except.error`. The analyzer's code reads only the
response body text, never the status, but the status is carried so that the
claims about non-2xx handling are statable.
-/

structure Response where
  status : Nat
  body : String
deriving DecidableEq

inductive HttpReq where
  | get (url : String) (params : List (String × String))
  | post (url : String) (data : List (String × String))
deriving DecidableEq

abbrev Client := HttpReq → Except String Response

/-- `generate_payloads`: the fixed five-payload catalog. -/
def generate_payloads : List String :=
  ["<script>alert('XSS')</script>",
   "javascript:alert('XSS')",
   "<img src=x onerror=alert('XSS')>",
   "<svg onload=alert('XSS')>",
   "'-alert('XSS')-'"]

/-! ## Reflection Probe Engine (`check_reflected_xss` / `check_form_xss`)

The Python code wraps no client call in `try`/`except`: a raised transport
error propagates and aborts the remaining probing. Each probing function
therefore returns the vulnerability strings appended before any exception
(the mutable `self.vulnerabilities` keeps them) together with
`Option String`: `some e` is an exception escaping to the caller.
-/

def paramMsg (param url : String) : String :=
  "Reflected XSS found in URL parameter " ++ param ++ " at " ++ url

/-- The test URL of the URL-parameter phase:
`url.replace(f"{param}={values[0]}", f"{param}={payload}")`. -/
def testUrl (url param value payload : String) : String :=
  pyReplace url (param ++ "=" ++ value) (param ++ "=" ++ payload)

/-- The inner payload loop of the URL-parameter phase: GET each test URL and
append a vulnerability string whenever the payload occurs in the body. -/
def probePayloads (client : Client) (url param value : String) :
    List String → List String × Option String
  | [] => ([], none)
  | payload :: rest =>
    match client (HttpReq.get (testUrl url param value payload) []) with
    | Except.error e => ([], some e)
    | Except.ok resp =>
      let tail := probePayloads client url param value rest
      ((if containsSub payload resp.body then [paramMsg param url] else []) ++ tail.1, tail.2)

/-- The outer parameter loop of the URL-parameter phase. `params` is
`parse_qs(urlparse(url).query)` reduced to each parameter's first value, as
the code uses `values[0]`; query parsing itself is the external URL
collaborator. -/
def probeParams (client : Client) (url : String) (payloads : List String) :
    List (String × String) → List String × Option String
  | [] => ([], none)
  | (param, value) :: rest =>
    match probePayloads client url param value payloads with
    | (vs, some e) => (vs, some e)
    | (vs, none) =>
      let tail := probeParams client url payloads rest
      (vs ++ tail.1, tail.2)

def formMsg (url : String) : String :=
  "Reflected XSS ound in form at " ++ url

/-- The Python dict comprehension
`{input.get('name'): payload for input in form.find_all('input') if input.get('name')}`:
named inputs in first-occurrence order, duplicates collapsed. -/
def uniqKeys (l : List String) : List String :=
  l.foldl (fun acc n => if n ∈ acc then acc else acc ++ [n]) []

def formNames (f : Form) : List String :=
  uniqKeys (f.inputs.filterMap FormInput.name)

def mkFormReq (isPost : Bool) (action : String) (data : List (String × String)) : HttpReq :=
  if isPost then HttpReq.post action data else HttpReq.get action data

/-- The payload loop of `check_form_xss`: submit every payload in catalog
order, remembering only the last payload and last response body. Returns the
requests issued in order and either that final pair or the exception. With an
empty payload list the variables `payload` and `response_text` are unbound in
Python and the final membership test raises `NameError`, modelled as `Except.ok none`. -/
def submitPayloads (client : Client) (isPost : Bool) (action : String) (names : List String) :
    List String → List HttpReq × Except String (Option (String × String))
  | [] => ([], Except.ok none)
  | payload :: rest =>
    let req := mkFormReq isPost action (names.map (fun n => (n, payload)))
    match client req with
    | Except.error e => ([req], Except.error e)
    | Except.ok resp =>
      match submitPayloads client isPost action names rest with
      | (reqs, Except.ok none) => (req :: reqs, Except.ok (some (payload, resp.body)))
      | (reqs, Except.ok (some last)) => (req :: reqs, Except.ok (some last))
      | (reqs, Except.error e) => (req :: reqs, Except.error e)

/-- `check_form_xss`: resolve the action against the target URL with the
external `urljoin` collaborator (`ujoin`; an absent action attribute becomes
`''`), lower the method (default `get`), submit every payload, then test the
last payload against the last response body only. Returns (vulnerability
strings appended, requests issued, escaping exception). -/
def check_form_xss (client : Client) (ujoin : String → String → String)
    (url : String) (form : Form) (payloads : List String) :
    List String × List HttpReq × Option String :=
  let action := ujoin url (form.action.getD "")
  let isPost := pyLower (form.method.getD "get") == "post"
  match submitPayloads client isPost action (formNames form) payloads with
  | (reqs, Except.error e) => ([], reqs, some e)
  | (reqs, Except.ok none) => ([], reqs, some "NameError")
  | (reqs, Except.ok (some (lastPayload, lastBody))) =>
    ((if containsSub lastPayload lastBody then [formMsg url] else []), reqs, none)

/-- The form loop of `check_reflected_xss`; an exception from one form skips
the remaining forms and escapes. -/
def probeForms (client : Client) (ujoin : String → String → String)
    (url : String) (payloads : List String) : List Form → List String × Option String
  | [] => ([], none)
  | form :: rest =>
    match check_form_xss client ujoin url form payloads with
    | (vs, _, some e) => (vs, some e)
    | (vs, _, none) =>
      let tail := probeForms client ujoin url payloads rest
      (vs ++ tail.1, tail.2)

/-- `check_reflected_xss`: the URL-parameter phase with
`generate_payloads`, then the form phase over the parsed forms. -/
def check_reflected_xss (client : Client) (ujoin : String → String → String)
    (url : String) (params : List (String × String)) (forms : List Form) :
    List String × Option String :=
  match probeParams client url generate_payloads params with
  | (vs, some e) => (vs, some e)
  | (vs, none) =>
    let tail := probeForms client ujoin url generate_payloads forms
    (vs ++ tail.1, tail.2)

/-! ## Report Assembler and Analyzer Facade -/

structure Report where
  url : String
  score : ℚ
  findings : List String
  overall_assessment : String
deriving DecidableEq

/-- An element of `self.vulnerabilities`. The code appends plain strings for
reflections and one report dict at the end; `record` is the structured
`(location, kind, detail)` shape the specification's data model prescribes,
modelled from the spec for comparison — the code never constructs it. -/
inductive VulnEntry where
  | msg (s : String)
  | record (location kind detail : String)
  | report (r : Report)
deriving DecidableEq

def isSpecRecord : VulnEntry → Bool
  | VulnEntry.record _ _ _ => true
  | _ => false

structure Session where
  url : String
  score : ℚ
  findings : List String
  vulnerabilities : List VulnEntry
deriving DecidableEq

/-- The verdict computed at the top of `generate_report`:
`score >= 2` → good, `elif score == 1` → some, else weak. -/
def overallAssessment (score : ℚ) : String :=
  if 2 ≤ score then "Good XSS protection measures in place"
  else if score = 1 then "Some XSS protection, but improvements needed"
  else "Weak XSS protection - improvements recommended"

/-- `generate_report`: builds the report record, appends it to
`self.vulnerabilities`, and — having no `return` statement — returns `None`,
modelled as the `Option Report` component `none`. -/
def generate_report (s : Session) : Session × Option Report :=
  let rep : Report := ⟨s.url, s.score, s.findings, overallAssessment s.score⟩
  ({ s with vulnerabilities := s.vulnerabilities ++ [VulnEntry.report rep] }, none)

/-- `analyze`: header rules, content scan, CSRF pass, reflection probing,
then `generate_report`, whose value it returns. The result is the final
session, the exception escaping from the probing phase (if any; the report is
then never assembled), and `analyze`'s return value. -/
def analyze (client : Client) (ujoin : String → String → String)
    (headers : HeaderSet) (url content : String) (inlineScripts : Nat)
    (params : List (String × String)) (forms : List Form) :
    Session × Option String × Option Report :=
  let s0 : Session := ⟨url, 0, [], []⟩
  let rh := check_headers headers
  let rc := analyze_content content inlineScripts
  let rf := check_forms forms
  let s1 : Session :=
    { s0 with score := s0.score + rh.1 + rc.1, findings := rh.2 ++ rc.2 ++ rf }
  match check_reflected_xss client ujoin url params forms with
  | (vs, some e) => ({ s1 with vulnerabilities := vs.map VulnEntry.msg }, some e, none)
  | (vs, none) =>
    let s2 := { s1 with vulnerabilities := vs.map VulnEntry.msg }
    let out := generate_report s2
    (out.1, none, out.2)

/-! ## Concrete collaborators used by witnesses and counterexamples -/

/-- A mock client that echoes the requested URL as the response body (so any
query-parameter value, the payload included, appears verbatim in the body). -/
def echoClient : Client := fun req =>
  match req with
  | HttpReq.get u _ => Except.ok ⟨200, u⟩
  | HttpReq.post u _ => Except.ok ⟨200, u⟩

/-- A mock client that never echoes anything. -/
def noEchoClient : Client := fun _ => Except.ok ⟨200, ""⟩

/-- A mock client that always answers with the body equal to the catalog's
last payload. -/
def lastEchoClient : Client := fun _ => Except.ok ⟨200, "'-alert('XSS')-'"⟩

/-- A mock client that raises a transport error on the `<img ...>` and
`<svg ...>` payload attempts (2 of the 5 catalog payloads) and otherwise
returns an empty body. -/
def flakyClient : Client := fun req =>
  match req with
  | HttpReq.get u _ =>
    if containsSub "<img" u || containsSub "<svg" u then Except.error "ConnectionError"
    else Except.ok ⟨200, ""⟩
  | HttpReq.post _ _ => Except.ok ⟨200, ""⟩

/-- A mock client that raises on every request. -/
def failClient : Client := fun _ => Except.error "Timeout"

/-- A trivial urljoin collaborator for concrete runs: an empty relative URL
resolves to the base, anything else stands alone. -/
def ujoin0 : String → String → String := fun base rel => if rel = "" then base else rel

/-- A form whose only input has no `name` attribute. -/
def unnamedForm : Form := ⟨none, some "/submit", none, [⟨none, some "text"⟩]⟩

/-- A POST form with one named input. -/
def postForm : Form := ⟨none, some "/a", some "post", [⟨some "user", none⟩]⟩

/-! ## C4 — report verdict boundaries -/

/-- C4 counterexample: the claim says score 1.5 yields "Good XSS protection
measures in place", but `generate_report` tests `score >= 2` and then
`score == 1`, so 1.5 falls through to the weak verdict. -/
theorem verdict_boundary_cex :
    overallAssessment (3/2) = "Weak XSS protection - improvements recommended" ∧
    overallAssessment (3/2) ≠ "Good XSS protection measures in place" := by
  have h : overallAssessment (3/2) = "Weak XSS protection - improvements recommended" := by
    unfold overallAssessment
    rw [if_neg (by norm_num), if_neg (by norm_num)]
  exact ⟨h, by rw [h]; decide⟩

/-- C4 amended: the verdict is a function of the final score alone with
`score >= 2` → good, `score == 1` → some, anything else → weak; hence 1.0
yields the "some" verdict, 2.0 the "good" verdict, and 1.5, 0.5 and −3 all
yield the "weak" verdict (1.5 does NOT reach the good verdict). -/
theorem verdict_boundary_amended :
    overallAssessment 1 = "Some XSS protection, but improvements needed" ∧
    overallAssessment 2 = "Good XSS protection measures in place" ∧
    overallAssessment (3/2) = "Weak XSS protection - improvements recommended" ∧
    overallAssessment (1/2) = "Weak XSS protection - improvements recommended" ∧
    overallAssessment (-3) = "Weak XSS protection - improvements recommended" := by
  refine ⟨?_, ?_, ?_, ?_, ?_⟩ <;>
    · unfold overallAssessment
      norm_num

/-! ## C5 — the report record is appended but not returned -/

/-- C5: `generate_report` builds the report record from the session and
appends it to `vulnerabilities`, but it contains no `return` statement, so
it — and therefore `analyze`, which returns its value — returns `None`
rather than the report record. Evaluated here at a concrete session and at a
concrete full `analyze` run. -/
theorem report_record_appended_not_returned :
    (generate_report ⟨"https://x", 0, [], []⟩).2 = none ∧
    (generate_report ⟨"https://x", 0, [], []⟩).1.vulnerabilities =
      [VulnEntry.report ⟨"https://x", 0, [], "Weak XSS protection - improvements recommended"⟩] ∧
    (analyze noEchoClient ujoin0 (fun _ => none) "https://x" "" 0 [] []).2.2 = none := by
  have h0 : overallAssessment 0 = "Weak XSS protection - improvements recommended" := by
    unfold overallAssessment
    rw [if_neg (by norm_num), if_neg (by norm_num)]
  refine ⟨rfl, ?_, rfl⟩
  simp [generate_report, h0]

/-! ## C8 — all security headers absent -/

/-- C8: when none of the six recognized header families is present (neither
spelling of the feature-policy family), `check_headers` contributes a score
delta of exactly 0 and exactly the six "missing" advisory findings, one per
family, in source order. -/
theorem headers_all_missing_six_advisories (headers : HeaderSet)
    (h1 : headers "Content-Security-Policy" = none)
    (h2 : headers "Strict-Transport-Security" = none)
    (h3 : headers "X-Frame-Options" = none)
    (h4 : headers "X-Content-Type-Options" = none)
    (h5 : headers "Referrer-Policy" = none)
    (h6 : headers "Feature-Policy" = none)
    (h7 : headers "Permissions-Policy" = none) :
    check_headers headers =
      (0, ["CSP header missing - consider implementing",
           "HSTS header missing - consider implementing",
           "X-Frame-Options header missing - consider implementing to prevent clickjacking",
           "X-Content-Type-Options header missing - consider implementing to prevent MIME type sniffing",
           "Referrer-Policy header missing - consider implementing to control referrer information",
           "Feature-Policy/Permissions-Policy header missing - consider implementing to control browser features"]) := by
  unfold check_headers
  rw [h1, h2, h3, h4, h5, h6, h7]
  norm_num [check_content_security_policy, check_strict_transport_security,
    check_x_frame_options, check_x_content_type_options, check_referrer_policy,
    check_feature_policy, truthy, pyOr]

/-- C8 witness: the empty header mapping. -/
theorem headers_all_missing_six_advisories_witness :
    check_headers (fun _ => none) =
      (0, ["CSP header missing - consider implementing",
           "HSTS header missing - consider implementing",
           "X-Frame-Options header missing - consider implementing to prevent clickjacking",
           "X-Content-Type-Options header missing - consider implementing to prevent MIME type sniffing",
           "Referrer-Policy header missing - consider implementing to control referrer information",
           "Feature-Policy/Permissions-Policy header missing - consider implementing to control browser features"]) :=
  headers_all_missing_six_advisories (fun _ => none) rfl rfl rfl rfl rfl rfl rfl

/-! ## C10 — every header-family check appends at least one finding -/

lemma csp_findings_len (v : Option String) :
    1 ≤ (check_content_security_policy v).2.length := by
  unfold check_content_security_policy
  split <;> simp

lemma hsts_findings_len (v : Option String) :
    1 ≤ (check_strict_transport_security v).2.length := by
  unfold check_strict_transport_security
  split
  · dsimp only
    split <;> split_ifs <;> simp
  · simp

lemma xfo_findings_len (v : Option String) :
    1 ≤ (check_x_frame_options v).2.length := by
  unfold check_x_frame_options
  split
  · dsimp only
    split_ifs <;> simp
  · simp

lemma xcto_findings_len (v : Option String) :
    1 ≤ (check_x_content_type_options v).2.length := by
  unfold check_x_content_type_options
  split
  · dsimp only
    split_ifs <;> simp
  · simp

lemma rp_findings_len (v : Option String) :
    1 ≤ (check_referrer_policy v).2.length := by
  unfold check_referrer_policy
  split
  · dsimp only
    split_ifs <;> simp
  · simp

lemma fp_findings_len (v w : Option String) :
    1 ≤ (check_feature_policy v w).2.length := by
  unfold check_feature_policy
  split <;> simp

/-- C10: whatever the header mapping holds, each of the six header-family
rules appends at least one finding, so one run of `check_headers` appends at
least six findings. -/
theorem header_checks_at_least_six_findings (headers : HeaderSet) :
    1 ≤ (check_content_security_policy (headers "Content-Security-Policy")).2.length ∧
    1 ≤ (check_strict_transport_security (headers "Strict-Transport-Security")).2.length ∧
    1 ≤ (check_x_frame_options (headers "X-Frame-Options")).2.length ∧
    1 ≤ (check_x_content_type_options (headers "X-Content-Type-Options")).2.length ∧
    1 ≤ (check_referrer_policy (headers "Referrer-Policy")).2.length ∧
    1 ≤ (check_feature_policy (headers "Feature-Policy") (headers "Permissions-Policy")).2.length ∧
    6 ≤ (check_headers headers).2.length := by
  refine ⟨csp_findings_len _, hsts_findings_len _, xfo_findings_len _, xcto_findings_len _,
    rp_findings_len _, fp_findings_len _ _, ?_⟩
  have e1 := csp_findings_len (headers "Content-Security-Policy")
  have e2 := hsts_findings_len (headers "Strict-Transport-Security")
  have e3 := xfo_findings_len (headers "X-Frame-Options")
  have e4 := xcto_findings_len (headers "X-Content-Type-Options")
  have e5 := rp_findings_len (headers "Referrer-Policy")
  have e6 := fp_findings_len (headers "Feature-Policy") (headers "Permissions-Policy")
  unfold check_headers
  simp only [List.length_append]
  omega

/-! ## C9 — each unsafe-JS signature counted at most once -/

def patternMessages : List String := unsafe_js_patterns.map Prod.snd

lemma patternFindings_sublist (content : String) :
    (patternFindings content).Sublist patternMessages :=
  List.Sublist.map Prod.snd (List.filter_sublist unsafe_js_patterns)

lemma patternMessages_nodup : patternMessages.Nodup := by decide

/-- C9: the unsafe-JS scan emits any signature's message at most once however
often the signature occurs (the findings are a duplicate-free sublist of the
six-message table), the score contribution is exactly −1 per emitted finding,
and the concrete text `eval(alert(1)) document.write('x')` scores −2 with the
two distinct document.write/eval findings. -/
theorem unsafe_patterns_once_each :
    (∀ content m : String, (patternFindings content).count m ≤ 1) ∧
    (∀ content : String, patternDelta content = -((patternFindings content).length : ℚ)) ∧
    analyze_content "eval(alert(1)) document.write('x')" 0 =
      (-2, ["Usage of document.write detected - potential XSS risk",
            "Usage of eval() detected - potential security risk"]) ∧
    ("Usage of document.write detected - potential XSS risk" : String) ≠
      "Usage of eval() detected - potential security risk" := by
  have hlen : ∀ content : String,
      patternDelta content = -((patternFindings content).length : ℚ) := by
    intro content
    simp [patternDelta, patternFindings]
  refine ⟨?_, hlen, ?_, by decide⟩
  · intro content m
    calc (patternFindings content).count m
        ≤ patternMessages.count m := (patternFindings_sublist content).count_le m
      _ ≤ 1 := List.nodup_iff_count_le_one.mp patternMessages_nodup m
  · have hpf : patternFindings "eval(alert(1)) document.write('x')" =
        ["Usage of document.write detected - potential XSS risk",
         "Usage of eval() detected - potential security risk"] := by decide
    have henc : encSearch ("eval(alert(1)) document.write('x')").data = false := by decide
    have hpd : patternDelta "eval(alert(1)) document.write('x')" = -2 := by
      rw [hlen, hpf]
      norm_num
    simp only [analyze_content, henc, hpf, hpd]
    norm_num

/-! ## C1 — one vulnerability record per (parameter, payload) pair -/

lemma probePayloads_echo (client : Client) (url param value : String)
    (payloads : List String)
    (hecho : ∀ p ∈ payloads, ∃ r, client (HttpReq.get (testUrl url param value p) []) =
      Except.ok r ∧ containsSub p r.body = true) :
    probePayloads client url param value payloads =
      (List.replicate payloads.length (paramMsg param url), none) := by
  induction payloads with
  | nil => rfl
  | cons p rest ih =>
    obtain ⟨r, hr, hc⟩ := hecho p (List.mem_cons_self p rest)
    have ihr := ih (fun q hq => hecho q (List.mem_cons_of_mem p hq))
    simp [probePayloads, hr, hc, ihr, List.replicate_succ]

/-- C1: for any target URL whose query string parsed to a parameter list, and
any client echoing every probed payload into the response body, the
URL-parameter phase appends exactly one vulnerability record per
(parameter, payload) pair — one full copy of the catalog's worth of records
per parameter, with no short-circuiting and no escaping exception. -/
theorem urlprobe_one_record_per_pair (client : Client) (url : String)
    (params : List (String × String))
    (hecho : ∀ pv ∈ params, ∀ p ∈ generate_payloads, ∃ r,
      client (HttpReq.get (testUrl url pv.1 pv.2 p) []) = Except.ok r ∧
      containsSub p r.body = true) :
    probeParams client url generate_payloads params =
      (params.flatMap (fun pv => List.replicate generate_payloads.length (paramMsg pv.1 url)),
       none) := by
  induction params with
  | nil => rfl
  | cons pv rest ih =>
    obtain ⟨param, value⟩ := pv
    have h1 := probePayloads_echo client url param value generate_payloads
      (fun p hp => hecho (param, value) (List.mem_cons_self _ _) p hp)
    have ihr := ih (fun q hq p hp => hecho q (List.mem_cons_of_mem _ hq) p hp)
    simp [probeParams, h1, ihr]

/-- C1 witness: probing `https://x/test?q=1` against the URL-echoing mock
client yields exactly 5 records for parameter `q`, one per catalog payload. -/
theorem urlprobe_one_record_per_pair_witness :
    probeParams echoClient "https://x/test?q=1" generate_payloads [("q", "1")] =
      (List.replicate 5 (paramMsg "q" "https://x/test?q=1"), none) := by
  have h := urlprobe_one_record_per_pair echoClient "https://x/test?q=1" [("q", "1")] ?_
  · simpa [generate_payloads] using h
  · intro pv hpv p hp
    rcases List.mem_singleton.mp hpv with rfl
    refine ⟨⟨200, testUrl "https://x/test?q=1" "q" "1" p⟩, rfl, ?_⟩
    simp only [generate_payloads, List.mem_cons, List.not_mem_nil, or_false] at hp
    rcases hp with rfl | rfl | rfl | rfl | rfl <;> decide

/-! ## C3 — transport failures are not caught -/

/-- C3 counterexample: with a client that never echoes and raises a transport
error on 2 of the 5 payload attempts, the probing does not complete with the
error swallowed — the exception escapes `check_reflected_xss` to the caller
(and the remaining payloads are never probed), refuting the claimed
catch-and-continue policy. -/
theorem transport_error_escapes_cex :
    probeParams flakyClient "https://x/test?q=1" generate_payloads [("q", "1")] =
      ([], some "ConnectionError") ∧
    (check_reflected_xss flakyClient ujoin0 "https://x/test?q=1" [("q", "1")] []).2 =
      some "ConnectionError" := by
  exact ⟨by decide, by decide⟩

/-- The same client with every response status rewritten by `g` (e.g. all
statuses turned into 500). -/
def mapStatus (g : Nat → Nat) (client : Client) : Client := fun req =>
  match client req with
  | Except.error e => Except.error e
  | Except.ok r => Except.ok ⟨g r.status, r.body⟩

lemma probePayloads_mapStatus (g : Nat → Nat) (client : Client) (url param value : String)
    (payloads : List String) :
    probePayloads (mapStatus g client) url param value payloads =
      probePayloads client url param value payloads := by
  induction payloads with
  | nil => rfl
  | cons p rest ih =>
    simp only [probePayloads, mapStatus]
    rcases hc : client (HttpReq.get (testUrl url param value p) []) with e | r
    · rfl
    · simp [ih]

/-- C3 amended: the engine wraps no client call in an exception handler and
never consults the response status. A raised transport error on an attempt
appends no vulnerability but aborts the remaining payloads and escapes to the
caller; and the result is invariant under arbitrary rewriting of response
statuses, so a non-2xx response is treated exactly like a 2xx one (its body
is still checked for reflection). -/
theorem transport_error_policy_amended :
    (∀ (client : Client) (url param value e p : String) (rest : List String),
      client (HttpReq.get (testUrl url param value p) []) = Except.error e →
      probePayloads client url param value (p :: rest) = ([], some e)) ∧
    (∀ (g : Nat → Nat) (client : Client) (url : String) (payloads : List String)
      (params : List (String × String)),
      probeParams (mapStatus g client) url payloads params =
        probeParams client url payloads params) := by
  constructor
  · intro client url param value e p rest h
    simp [probePayloads, h]
  · intro g client url payloads params
    induction params with
    | nil => rfl
    | cons pv rest ih =>
      obtain ⟨param, value⟩ := pv
      simp only [probeParams, probePayloads_mapStatus g client url param value payloads, ih]

/-- C3 amended witness: a client raising on every request makes the very
first payload attempt abort the phase with the error escaping. -/
theorem transport_error_policy_amended_witness :
    probePayloads failClient "https://x/test?q=1" "q" "1" generate_payloads =
      ([], some "Timeout") :=
  transport_error_policy_amended.1 failClient "https://x/test?q=1" "q" "1" "Timeout"
    "<script>alert('XSS')</script>"
    ["javascript:alert('XSS')", "<img src=x onerror=alert('XSS')>",
     "<svg onload=alert('XSS')>", "'-alert('XSS')-'"] rfl

/-! ## C2 / C6 — the form phase -/

lemma submitPayloads_spec (client : Client) (resp : HttpReq → Response)
    (hok : ∀ q, client q = Except.ok (resp q)) (isPost : Bool) (action : String)
    (names : List String) :
    ∀ payloads : List String,
      submitPayloads client isPost action names payloads =
        (payloads.map (fun pay => mkFormReq isPost action (names.map (fun n => (n, pay)))),
         Except.ok (payloads.getLast?.map (fun lp =>
           (lp, (resp (mkFormReq isPost action (names.map (fun n => (n, lp))))).body)))) := by
  intro payloads
  induction payloads with
  | nil => rfl
  | cons p rest ih =>
    simp only [submitPayloads, hok, ih]
    cases rest with
    | nil => simp
    | cons q rest' =>
      have hlp : (q :: rest').getLast? =
          some ((q :: rest').getLast (List.cons_ne_nil q rest')) :=
        List.getLast?_eq_getLast (q :: rest') (List.cons_ne_nil q rest')
      simp [hlp, List.getLast?_cons_cons, List.getLast_cons_cons]

/-- C2: for any form, with a client described by a total response function,
the form phase submits one request per catalog payload in catalog order, then
performs exactly one reflection check: it appends the single form
vulnerability exactly when the last payload appears verbatim in the body of
the response to the last submitted request, and appends nothing otherwise —
reflections of earlier payloads in earlier responses are never recorded. -/
theorem formprobe_last_payload_only (client : Client) (ujoin : String → String → String)
    (url : String) (form : Form) (resp : HttpReq → Response)
    (hok : ∀ q, client q = Except.ok (resp q)) (p : String) (rest : List String) :
    check_form_xss client ujoin url form (p :: rest) =
      ((if containsSub ((p :: rest).getLast (List.cons_ne_nil p rest))
           (resp (mkFormReq (pyLower (form.method.getD "get") == "post")
             (ujoin url (form.action.getD ""))
             ((formNames form).map (fun n =>
               (n, (p :: rest).getLast (List.cons_ne_nil p rest)))))).body
        then [formMsg url] else []),
       (p :: rest).map (fun pay => mkFormReq (pyLower (form.method.getD "get") == "post")
         (ujoin url (form.action.getD "")) ((formNames form).map (fun n => (n, pay)))),
       none) := by
  have hlp : (p :: rest).getLast? = some ((p :: rest).getLast (List.cons_ne_nil p rest)) :=
    List.getLast?_eq_getLast (p :: rest) (List.cons_ne_nil p rest)
  simp only [check_form_xss, submitPayloads_spec client resp hok, hlp, Option.map_some']

/-- C2 witness: a POST form with one named input, against a client whose
every response body is the catalog's last payload: all five requests are
issued and exactly one vulnerability is recorded. -/
theorem formprobe_last_payload_only_witness :
    check_form_xss lastEchoClient ujoin0 "https://x" postForm
      ("<script>alert('XSS')</script>" :: ["javascript:alert('XSS')",
        "<img src=x onerror=alert('XSS')>", "<svg onload=alert('XSS')>",
        "'-alert('XSS')-'"]) =
      ([formMsg "https://x"],
       ["<script>alert('XSS')</script>", "javascript:alert('XSS')",
        "<img src=x onerror=alert('XSS')>", "<svg onload=alert('XSS')>",
        "'-alert('XSS')-'"].map (fun pay => HttpReq.post "/a" [("user", pay)]),
       none) := by
  have h := formprobe_last_payload_only lastEchoClient ujoin0 "https://x" postForm
    (fun _ => ⟨200, "'-alert('XSS')-'"⟩) (fun q => rfl) "<script>alert('XSS')</script>"
    ["javascript:alert('XSS')", "<img src=x onerror=alert('XSS')>",
     "<svg onload=alert('XSS')>", "'-alert('XSS')-'"]
  rw [h]
  decide

/-- C6 counterexample: a form whose only input has no name attribute is NOT
skipped: the phase still issues one request per payload (5 requests, not 0)
with an empty field mapping. -/
theorem empty_form_not_skipped_cex :
    (check_form_xss noEchoClient ujoin0 "https://x" unnamedForm
      generate_payloads).2.1.length = 5 ∧
    ¬ (check_form_xss noEchoClient ujoin0 "https://x" unnamedForm
      generate_payloads).2.1.length = 0 := by
  exact ⟨by decide, by decide⟩

/-- C6 amended: a form with no named input fields is not skipped — the phase
issues one request per payload, each with an empty field mapping, raises no
error (the client succeeding), and still applies the usual last-payload
reflection check. A missing action attribute never causes a skip either: it
resolves through `urljoin` against the target URL. -/
theorem empty_form_requests_amended (client : Client) (ujoin : String → String → String)
    (url : String) (form : Form) (resp : HttpReq → Response)
    (hok : ∀ q, client q = Except.ok (resp q))
    (hnames : form.inputs.filterMap FormInput.name = [])
    (p : String) (rest : List String) :
    check_form_xss client ujoin url form (p :: rest) =
      ((if containsSub ((p :: rest).getLast (List.cons_ne_nil p rest))
           (resp (mkFormReq (pyLower (form.method.getD "get") == "post")
             (ujoin url (form.action.getD "")) [])).body
        then [formMsg url] else []),
       List.replicate (p :: rest).length
         (mkFormReq (pyLower (form.method.getD "get") == "post")
           (ujoin url (form.action.getD "")) []),
       none) := by
  have hfn : formNames form = [] := by simp [formNames, hnames, uniqKeys]
  have hlp : (p :: rest).getLast? = some ((p :: rest).getLast (List.cons_ne_nil p rest)) :=
    List.getLast?_eq_getLast (p :: rest) (List.cons_ne_nil p rest)
  simp only [check_form_xss, submitPayloads_spec client resp hok, hfn, hlp,
    Option.map_some', List.map_nil]
  simp [List.map_const']
  exact (List.replicate_succ _ _).symm

/-- C6 amended witness: the unnamed-input form against the never-echoing
client: five identical GET requests with no parameters, no vulnerability, no
error. -/
theorem empty_form_requests_amended_witness :
    check_form_xss noEchoClient ujoin0 "https://x" unnamedForm
      ("<script>alert('XSS')</script>" :: ["javascript:alert('XSS')",
        "<img src=x onerror=alert('XSS')>", "<svg onload=alert('XSS')>",
        "'-alert('XSS')-'"]) =
      ([], List.replicate 5 (HttpReq.get "/submit" []), none) := by
  have h := empty_form_requests_amended noEchoClient ujoin0 "https://x" unnamedForm
    (fun _ => ⟨200, ""⟩) (fun q => rfl) rfl "<script>alert('XSS')</script>"
    ["javascript:alert('XSS')", "<img src=x onerror=alert('XSS')>",
     "<svg onload=alert('XSS')>", "'-alert('XSS')-'"]
  rw [h]
  decide

/-! ## C7 — reflection appends are flat strings, not structured records -/

/-- C7 counterexample: in a concrete echoing run, the entry the URL phase
appends to `vulnerabilities` is the flat string
"Reflected XSS found in URL parameter q at https://x/test?q=1", not a
structured `(location, kind, detail)` record as the data model prescribes. -/
theorem vuln_entry_not_record_cex :
    (analyze echoClient ujoin0 (fun _ => none) "https://x/test?q=1" "" 0
      [("q", "1")] []).1.vulnerabilities.head? =
      some (VulnEntry.msg (paramMsg "q" "https://x/test?q=1")) ∧
    isSpecRecord (VulnEntry.msg (paramMsg "q" "https://x/test?q=1")) = false := by
  exact ⟨by decide, rfl⟩

/-- C7 amended: every element appended by a confirmed reflection is a flat
human-readable string — the URL phase always appends exactly the string
`paramMsg param url` and the form phase exactly the string `formMsg url`
(with its "ound" typo); no location/kind/detail record is ever constructed. -/
theorem vuln_entries_are_strings_amended :
    (∀ (client : Client) (url param value : String) (payloads : List String) (v : String),
      v ∈ (probePayloads client url param value payloads).1 → v = paramMsg param url) ∧
    (∀ (client : Client) (ujoin : String → String → String) (url : String) (form : Form)
      (payloads : List String) (v : String),
      v ∈ (check_form_xss client ujoin url form payloads).1 → v = formMsg url) := by
  constructor
  · intro client url param value payloads
    induction payloads with
    | nil => intro v hv; simp [probePayloads] at hv
    | cons p rest ih =>
      intro v hv
      simp only [probePayloads] at hv
      rcases hc : client (HttpReq.get (testUrl url param value p) []) with e | r <;>
        rw [hc] at hv
      · simp at hv
      · simp only [List.mem_append] at hv
        rcases hv with h1 | h2
        · by_cases hb : containsSub p r.body = true
          · rw [if_pos hb] at h1
            simpa using h1
          · rw [if_neg hb] at h1
            simp at h1
        · exact ih v h2
  · intro client ujoin url form payloads v hv
    simp only [check_form_xss] at hv
    rcases hs : submitPayloads client (pyLower (form.method.getD "get") == "post")
        (ujoin url (form.action.getD "")) (formNames form) payloads with ⟨reqs, res⟩
    rw [hs] at hv
    rcases res with e | olast
    · simp at hv
    · rcases olast with _ | ⟨lastP, lastBody⟩
      · simp at hv
      · dsimp only at hv
        by_cases hb : containsSub lastP lastBody = true
        · rw [if_pos hb] at hv
          simpa using hv
        · rw [if_neg hb] at hv
          simp at hv

/-- C7 amended witness: the string a concrete echoing run appends for
parameter `q` is exactly `paramMsg "q" url`. -/
theorem vuln_entries_are_strings_amended_witness :
    ("Reflected XSS found in URL parameter q at https://x/test?q=1" : String) =
      paramMsg "q" "https://x/test?q=1" :=
  vuln_entries_are_strings_amended.1 echoClient "https://x/test?q=1" "q" "1"
    generate_payloads "Reflected XSS found in URL parameter q at https://x/test?q=1"
    (by decide)

end XssSecure
